import Mathlib

/-!
Shallow embedding of `MKVAudioSubsDefaulter/MKVAudioSubsDefaulter.py` (v1.3.3),
the core of the MKVAudioSubsDefaulter repository, together with theorems that
settle the frozen claims about its specification.

The embedding follows the source closely:

* `Track` / `TracksInfo` mirror the per-file dictionary built by
  `process_media_file_info` (`extract_track_info`, lines 171-203): each track
  keeps the fields extracted there, and the two track classes are kept as
  insertion-ordered association lists, matching Python dict iteration order
  (ascending mkvmerge id order in practice).
* `scanTrack` / `scanTracks` embed the per-track loop of
  `process_media_file_tracks` (lines 292-317), `processTrackType` the
  post-loop classification (lines 320-384), and `process_media_file_tracks`
  the whole per-file function (lines 255-443).
* Python integers are `Int`; a Python variable that may hold `None`, an int or
  the string `"off"` is `Option PyVal`.
* Code that can raise (`verify_language_code`, the `TypeError`s latent in the
  arithmetic on `"off"`, and `subprocess.run(..., check=True)`) returns
  `Except PyError`.
* Side effects (the mkvpropedit invocation) and the final values of local
  variables (`mkv_cmds`, `no_changes`) are recorded as explicit fields of the
  result record `FileRes`, so that claims about them can be stated.
-/

namespace MkvDefaulter

/-- The two track classes handled by the tool (`"audio"` and `"subtitles"`
in the Python source). -/
inductive TrackType where
  | audio
  | subtitles
deriving DecidableEq, Repr

/-- One media track, with the fields `extract_track_info` pulls out of the
mkvmerge JSON (lines 171-183).  `track_prop.get` yields `None` for a missing
key, hence the `Option` types; `if track["default"]` tests Python truthiness,
which `Option.getD false` reproduces for an `Option Bool`. -/
structure Track where
  language : Option String := none
  name : Option String := none
  defaultFlag : Option Bool := none
  enabled : Option Bool := none
  forced : Option Bool := none
  text_subtitles : Option Bool := none
deriving DecidableEq, Repr

/-- Truthiness of the `default` entry of a track dict. -/
def Track.isDefaultTrack (t : Track) : Bool :=
  t.defaultFlag.getD false

/-- The `tracks_info` dictionary for one file: `{"audio": {...}, "subtitles":
{...}}`, each an insertion-ordered mapping from mkvmerge global id to track
(lines 199-203). -/
structure TracksInfo where
  audio : List (Int × Track) := []
  subtitles : List (Int × Track) := []
deriving DecidableEq, Repr

/-- Python `tracks_info.get(track_type)` with an empty-dict fallback. -/
def tracksOf (info : TracksInfo) (ty : TrackType) : List (Int × Track) :=
  match ty with
  | TrackType.audio => info.audio
  | TrackType.subtitles => info.subtitles

/-- Python `len` of the audio track dict, used for the subtitle
relative-number arithmetic. -/
def audioLenOf (info : TracksInfo) : Int :=
  (info.audio.length : Int)

/-- Value of the Python variables `current_default_track_num` /
`new_default_track_num` when they are not `None`: either an int id or the
string `"off"`. -/
inductive PyVal where
  | num (n : Int)
  | off
deriving DecidableEq, Repr

/-- One staged `--edit track:<letter><num> --set flag-default=<flag>` pair
appended to `mkv_cmds`.  `relNum` is the number written into the command
string; `globalId` records which global track id the emission site computed
it from (the value of the variable before the `len(audio)` subtraction). -/
structure MkvCmd where
  trackType : TrackType
  globalId : Int
  relNum : Int
  flag : Int
deriving DecidableEq, Repr

/-- Exceptions the embedded code can raise. -/
inductive PyError where
  | langCodeError (code : String) (ty : TrackType)
  | typeError
  | calledProcessError (output : String)
deriving DecidableEq, Repr

/-- State of the per-track scan loop (lines 288-317): the two `..._track_num`
variables and the `mkv_cmds` accumulated so far. -/
structure ScanState where
  cur : Option PyVal
  new : Option PyVal
  cmds : List MkvCmd
deriving DecidableEq, Repr

/-- Tail of one loop iteration (lines 313-317): the `if track["language"] ==
code` / `elif current_default_track_num == code == "off"` update of
`new_default_track_num`.  `trackNum` is the Python variable `track_num`,
which the head of the iteration may have reassigned to a relative number. -/
def scanTail (code : String) (s : ScanState) (trackNum : Int) (t : Track) :
    ScanState :=
  if t.language = some code then
    { s with new := some (PyVal.num trackNum) }
  else if s.cur = some PyVal.off ∧ code = "off" then
    { s with new := some PyVal.off }
  else s

/-- One iteration of the per-track loop (lines 292-317).  In the branch that
clears the current default, Python reassigns the loop variable `track_num`
to the relative number before the tail runs; `scanTail` receives that
reassigned value, exactly as in the source. -/
def scanTrack (ty : TrackType) (code : String) (audioLen : Int)
    (s : ScanState) (trackNum : Int) (t : Track) : ScanState :=
  if t.isDefaultTrack then
    let cur' := some (PyVal.num trackNum)
    if ¬ (t.language = some code ∨ code = "off") then
      let tn := if ty = TrackType.subtitles then trackNum - audioLen else trackNum
      scanTail code
        { cur := cur', new := s.new,
          cmds := s.cmds ++ [⟨ty, trackNum, tn, 0⟩] } tn t
    else
      scanTail code { cur := cur', new := s.new, cmds := s.cmds } trackNum t
  else if ty = TrackType.subtitles ∧ s.cur = none then
    scanTail code { cur := some PyVal.off, new := s.new, cmds := s.cmds }
      trackNum t
  else
    scanTail code s trackNum t

/-- The whole per-track loop: a fold of `scanTrack` over the type's tracks in
dict order, starting from `current_default_track_num = None`,
`new_default_track_num = None` and the `mkv_cmds` staged so far being the
type's own (initially empty) contribution. -/
def scanTracks (ty : TrackType) (code : String) (audioLen : Int)
    (tracks : List (Int × Track)) : ScanState :=
  tracks.foldl (fun s p => scanTrack ty code audioLen s p.1 p.2)
    { cur := none, new := none, cmds := [] }

/-- Post-loop classification for one `(code, track_type)` pair (lines
320-384).  Returns the type's `mkv_cmds` contribution and whether the
strict-mode abort fired (the site at lines 335-336 that does
`miss_track_count += 1` and `no_changes = True`).  The `"off" - int`
arithmetic that Python would crash on surfaces as `PyError.typeError`. -/
def processTrackType (method : String) (info : TracksInfo) (ty : TrackType)
    (code : String) : Except PyError (List MkvCmd × Bool) :=
  let tracks := tracksOf info ty
  let audioLen := audioLenOf info
  let s := scanTracks ty code audioLen tracks
  if ty = TrackType.subtitles ∧ tracks = [] ∧ code = "off" then
    -- "no subtitles exist in the media file" warning (lines 320-327)
    Except.ok (s.cmds, false)
  else
    match s.new with
    | none =>
      if method = "strict" then
        if code ≠ "off" ∨ s.cur = none then
          -- lines 332-336: missing-track abort
          Except.ok (s.cmds, true)
        else
          match s.cur with
          | some (PyVal.num c) =>
            -- lines 338-351: code == "off" with an existing default
            let rel := if ty = TrackType.subtitles then c - audioLen else c
            Except.ok (s.cmds ++ [⟨ty, c, rel, 0⟩], false)
          | _ => Except.error PyError.typeError
      else
        -- lines 352-356: lazy (or any other method string) skips
        Except.ok (s.cmds, false)
    | some nd =>
      if s.cur = some nd then
        -- lines 357-360: already the default
        Except.ok (s.cmds, false)
      else
        -- lines 361-384
        let flag : Int := if nd = PyVal.off then 0 else 1
        let nd2 := if nd = PyVal.off then s.cur else some nd
        match nd2 with
        | some (PyVal.num n) =>
          let rel := if ty = TrackType.subtitles then n - audioLen else n
          Except.ok (s.cmds ++ [⟨ty, n, rel, flag⟩], false)
        | _ => Except.error PyError.typeError

/-- Configuration of one run: the constructor arguments of the
`MKVAudioSubsDefaulter` object that the per-file code reads, the language
code registry, and the environment of the external calls (module directory,
platform, and the mkvpropedit behavior observed when it is invoked). -/
structure Config where
  audio_lang_code : Option String
  subtitle_lang_code : Option String
  default_method : String := "strict"
  dry_run : Bool := false
  file_extensions : List String := [".mkv"]
  mkvmerge_location : Option String := none
  langCodeLines : List String
  moduleDir : String
  platform : String := "linux"
  editorReturncode : Int := 0
  editorOutput : String := ""
deriving DecidableEq, Repr

/-- Python `str.lower()` (the codes and paths involved are ASCII). -/
def pyLower (s : String) : String :=
  String.mk (s.data.map Char.toLower)

/-- Python `str.endswith(suffix)`. -/
def pyEndsWith (s suffix : String) : Bool :=
  suffix.data.isSuffixOf s.data

/-- Python `str.startswith(pre)`. -/
def pyStartsWith (s pre : String) : Bool :=
  pre.data.isPrefixOf s.data

/-- Split a character list on a separator, Python `str.split(sep)` style:
always at least one (possibly empty) piece. -/
def splitCharOn (sep : Char) : List Char → List (List Char)
  | [] => [[]]
  | c :: rest =>
    let r := splitCharOn sep rest
    if c = sep then [] :: r
    else
      match r with
      | [] => [[c]]
      | h :: t => (c :: h) :: t

/-- Python `code.split(":")[0]` applied to one line of `language_codes.txt`. -/
def codeOfLine (line : String) : String :=
  String.mk ((splitCharOn ':' line.data).headD line.data)

/-- Embedding of `verify_language_code` (lines 160-168): raises unless the code appears
before the colon on some line of the registry file. -/
def verify_language_code (langCodeLines : List String) (lang : String)
    (ty : TrackType) : Except PyError Bool :=
  if lang ∈ langCodeLines.map codeOfLine then Except.ok true
  else Except.error (PyError.langCodeError lang ty)

/-- The desired code for a track type (`self.audio_lang_code` resp.
`self.subtitle_lang_code`). -/
def codeFor (cfg : Config) (ty : TrackType) : Option String :=
  match ty with
  | TrackType.audio => cfg.audio_lang_code
  | TrackType.subtitles => cfg.subtitle_lang_code

/-- One item of the `for code, track_type in [...]` loop (lines 281-287): a
`None` code contributes nothing; otherwise the code is lower-cased, verified
(which can raise), and the type is resolved. -/
def processLangPair (cfg : Config) (info : TracksInfo) (ty : TrackType) :
    Except PyError (List MkvCmd × Bool) :=
  match codeFor cfg ty with
  | none => Except.ok ([], false)
  | some code0 =>
    let code := pyLower code0
    match verify_language_code cfg.langCodeLines code ty with
    | Except.error e => Except.error e
    | Except.ok _ => processTrackType cfg.default_method info ty code

/-- Basename of a POSIX path (the part after the last `/`). -/
def basenameOf (p : String) : List Char :=
  (splitCharOn '/' p.data).getLastD p.data

/-- Scanner for `splitextExt`: walks the basename remembering whether a
non-dot character was seen (`sawStem`) and the suffix starting at the last
dot preceded by some stem character. -/
def splitextGo (sawStem : Bool) (foundExt : Option (List Char)) :
    List Char → Option (List Char)
  | [] => foundExt
  | c :: rest =>
    if c = '.' then
      if sawStem then splitextGo sawStem (some (c :: rest)) rest
      else splitextGo sawStem foundExt rest
    else splitextGo true foundExt rest

/-- Python `os.path.splitext(p)[1]` for a POSIX path: the extension starts at the
last dot of the basename, except that a run of dots at the very start of the
basename never begins an extension (so `".bashrc"` has no extension). -/
def splitextExt (p : String) : String :=
  match splitextGo false none (basenameOf p) with
  | some ext => String.mk ext
  | none => ""

/-- Python `os.path.join(a, b)` for two components under POSIX rules: an absolute
second component discards the first. -/
def osPathJoin (a b : String) : String :=
  if pyStartsWith b "/" then b
  else if a = "" ∨ pyEndsWith a "/" then a ++ b
  else a ++ "/" ++ b

/-- The path argument the Container Inspector is invoked with:
`process_media_file_info` passes `file_path` to mkvmerge unchanged
(lines 191 and 194, `[mkvmerge_path, "-J", file_path]`). -/
def inspectorFilePath (filePath : String) : String :=
  filePath

/-- The path argument mkvpropedit is invoked with (line 395):
`os.path.join(os.path.dirname(__file__), media_file)`. -/
def editorFilePath (moduleDir mediaFile : String) : String :=
  osPathJoin moduleDir mediaFile

/-- The recorded mkvpropedit invocation: the file path of the command and the
staged edit fragments appended after it (lines 393-396). -/
structure EditorCall where
  path : String
  cmds : List MkvCmd
deriving DecidableEq, Repr

/-- Result of `process_media_file_tracks` for one file: the returned tuple
`((media_file_ext, 1), successful, estimated, unchanged, miss_track,
invalid, failed)` (lines 435-443), together with the final values of the
local variables `mkv_cmds` and `no_changes` and the observed side effects
(whether and how mkvpropedit was invoked, and the diagnostic text logged on
a non-zero editor exit). -/
structure FileRes where
  ext : String
  extCount : Int := 1
  successful : Int := 0
  estimated : Int := 0
  unchanged : Int := 0
  missTrack : Int := 0
  invalid : Int := 0
  failed : Int := 0
  staged : List MkvCmd := []
  noChanges : Bool := false
  editorCall : Option EditorCall := none
  diag : Option String := none
deriving DecidableEq, Repr

/-- The operations actually applied to the file: the fragments of the editor
invocation if one happened, nothing otherwise. -/
def appliedOps (r : FileRes) : List MkvCmd :=
  match r.editorCall with
  | some c => c.cmds
  | none => []

/-- Tail of `process_media_file_tracks` after both language pairs are
resolved (lines 386-433): decide between invoking mkvpropedit, the
`no_changes` warning, and the unchanged case.  On non-win32 platforms
`subproc_run(full_cmd, capture_output=True, check=True)` (line 406) raises
`CalledProcessError` on a non-zero exit, so the `returncode != 0` handler at
lines 409-418 can only run on win32; the Python renders the diagnostic via
`json.loads(output)["errors"]` with the raw output as fallback, which is
recorded here as the raw output. -/
def finishFile (cfg : Config) (mediaFile ext : String) (cmds : List MkvCmd)
    (noChanges : Bool) (miss : Int) : Except PyError FileRes :=
  if cmds ≠ [] ∧ noChanges = false then
    let call : EditorCall := ⟨editorFilePath cfg.moduleDir mediaFile, cmds⟩
    if cfg.dry_run = false then
      if cfg.platform = "win32" then
        if cfg.editorReturncode ≠ 0 then
          Except.ok { ext := ext, failed := 1, staged := cmds,
                      editorCall := some call, diag := some cfg.editorOutput }
        else
          Except.ok { ext := ext, successful := 1, staged := cmds,
                      editorCall := some call }
      else
        if cfg.editorReturncode ≠ 0 then
          Except.error (PyError.calledProcessError cfg.editorOutput)
        else
          Except.ok { ext := ext, successful := 1, staged := cmds,
                      editorCall := some call }
    else
      Except.ok { ext := ext, estimated := 1, staged := cmds }
  else if noChanges then
    Except.ok { ext := ext, missTrack := miss, staged := cmds,
                noChanges := true }
  else
    Except.ok { ext := ext, unchanged := 1 }

/-- Embedding of `process_media_file_tracks` (lines 255-443) for one
`(media_file, tracks_info)` item: the extension histogram entry is computed
first, non-`.mkv` files (case-insensitively) are counted invalid with no
further work, and otherwise the audio pair then the subtitle pair are
resolved — accumulating `mkv_cmds`, `no_changes` and `miss_track_count` —
before the tail decides the outcome. -/
def process_media_file_tracks (cfg : Config) (p : String × TracksInfo) :
    Except PyError FileRes :=
  let mediaFile := p.1
  let info := p.2
  let ext := splitextExt (pyLower mediaFile)
  if ¬ pyEndsWith (pyLower mediaFile) ".mkv" then
    Except.ok { ext := ext, invalid := 1 }
  else
    match processLangPair cfg info TrackType.audio with
    | Except.error e => Except.error e
    | Except.ok (cmdsA, abortA) =>
      match processLangPair cfg info TrackType.subtitles with
      | Except.error e => Except.error e
      | Except.ok (cmdsS, abortS) =>
        finishFile cfg mediaFile ext (cmdsA ++ cmdsS) (abortA || abortS)
          ((if abortA then 1 else 0) + (if abortS then 1 else 0))

/-- Extension histogram update in `change_default_tracks` (lines 462-464):
create the key with value 0 if absent, then add the count. -/
def bumpHist : List (String × Int) → String → Int → List (String × Int)
  | [], e, n => [(e, n)]
  | (k, v) :: rest, e, n =>
    if k = e then (k, v + n) :: rest else (k, v) :: bumpHist rest e n

/-- Aggregated summary of `change_default_tracks` (lines 445-471). -/
structure Agg where
  hist : List (String × Int) := []
  successful : Int := 0
  estimated : Int := 0
  unchanged : Int := 0
  missTrack : Int := 0
  invalid : Int := 0
  failed : Int := 0
deriving DecidableEq, Repr

/-- Fold one per-file result into the aggregate. -/
def addFileRes (a : Agg) (r : FileRes) : Agg :=
  { hist := bumpHist a.hist r.ext r.extCount,
    successful := a.successful + r.successful,
    estimated := a.estimated + r.estimated,
    unchanged := a.unchanged + r.unchanged,
    missTrack := a.missTrack + r.missTrack,
    invalid := a.invalid + r.invalid,
    failed := a.failed + r.failed }

/-- Worker loop of `change_default_tracks`: files are consumed in submission
order (the behavior of `pool.imap` with the default pool size of 1); an
uncaught exception from a worker propagates out of the iteration and aborts
the batch.  On error the count of files already fully processed is returned
alongside the exception, so that "how far the batch got" is observable. -/
def changeDefaultTracksGo (cfg : Config) :
    Nat → Agg → List (String × TracksInfo) → Except (Nat × PyError) Agg
  | _, a, [] => Except.ok a
  | done, a, f :: rest =>
    match process_media_file_tracks cfg f with
    | Except.error e => Except.error (done, e)
    | Except.ok r => changeDefaultTracksGo cfg (done + 1) (addFileRes a r) rest

/-- Embedding of `change_default_tracks` (lines 445-471) over an ordered list of
`(media_file, tracks_info)` items. -/
def change_default_tracks (cfg : Config)
    (files : List (String × TracksInfo)) : Except (Nat × PyError) Agg :=
  changeDefaultTracksGo cfg 0 {} files

/-- Single-file branch of `get_media_files_info` (lines 228-230): the path is
a candidate iff it ends with one of the configured extensions. -/
def singleFileMediaPaths (exts : List String) (path : String) : List String :=
  if exts.any (fun e => pyEndsWith path e) then [path] else []

/-- Sum of the six per-file outcome counters of one reconciliation result. -/
def outcomeSum (r : FileRes) : Int :=
  r.successful + r.estimated + r.unchanged + r.missTrack + r.invalid + r.failed

/-- The path of the mkvpropedit invocation of a result, if one happened. -/
def editorPathOf (r : FileRes) : Option String :=
  r.editorCall.map EditorCall.path

/-- Modelled from the spec: Track Resolver step 4 says `newDefaultId` is "the
id of the first track whose language equals `code`".  This definition follows
those words; the resolver claim compares the code's choice against it. -/
def specFirstMatchId (tracks : List (Int × Track)) (code : String) :
    Option Int :=
  (tracks.find? (fun p => p.2.language = some code)).map Prod.fst

/-- The id of the last track, in order, whose language equals the code: later
matches take precedence over earlier ones. -/
def specLastMatchId (tracks : List (Int × Track)) (code : String) :
    Option Int :=
  match tracks with
  | [] => none
  | p :: rest =>
    match specLastMatchId rest code with
    | some i => some i
    | none => if p.2.language = some code then some p.1 else none

/-- Correct type-relative translation of one staged command, relative to the
container's audio track count: identity for audio, shift by the audio track
count for subtitles. -/
def cmdOk (audioLen : Int) (c : MkvCmd) : Prop :=
  (c.trackType = TrackType.subtitles → c.relNum = c.globalId - audioLen) ∧
  (c.trackType = TrackType.audio → c.relNum = c.globalId)

/-! ### Concrete fixtures used by witnesses and counterexamples

`sampleRegLines` stands for the contents of `language_codes.txt` (a data file
of the repository that ships outside the Python source); the CLI documents
that `"off"` is an accepted subtitle code, so the registry lists it. -/

/-- A small language-code registry. -/
def sampleRegLines : List String :=
  ["eng:English", "jpn:Japanese", "fra:French", "off:Off"]

/-- The spec §8 scenario container: audio `{0: eng (default), 1: jpn}`,
subtitles `{2: eng, 3: jpn (default)}`. -/
def infoScn : TracksInfo :=
  { audio := [(0, { language := some "eng", defaultFlag := some true }),
              (1, { language := some "jpn" })],
    subtitles := [(2, { language := some "eng" }),
                  (3, { language := some "jpn", defaultFlag := some true })] }

/-- A container whose audio is `{0: jpn (default)}` and whose subtitles are
`{1: jpn (default), 2: eng}`: an `eng` audio request misses, an `eng`
subtitle request is satisfiable. -/
def infoJpnDefault : TracksInfo :=
  { audio := [(0, { language := some "jpn", defaultFlag := some true })],
    subtitles := [(1, { language := some "jpn", defaultFlag := some true }),
                  (2, { language := some "eng" })] }

/-- Base run configuration: strict, not a dry run, registry
`sampleRegLines`, module directory `/app/pkg`, mkvpropedit succeeding. -/
def cfgBase : Config :=
  { audio_lang_code := some "eng"
    subtitle_lang_code := some "eng"
    langCodeLines := sampleRegLines
    moduleDir := "/app/pkg" }

/-- Strict run requesting `jpn` audio and `eng` subtitles (the §8 scenario
configuration). -/
def cfgScn : Config :=
  { cfgBase with audio_lang_code := some "jpn" }

/-- Lazy run requesting `eng` for both types. -/
def cfgLazyEng : Config :=
  { cfgBase with default_method := "lazy" }

/-- Strict run requesting `fra` for both types. -/
def cfgFraFra : Config :=
  { cfgBase with audio_lang_code := some "fra", subtitle_lang_code := some "fra" }

/-- Run whose audio code `xxx` is not in the registry. -/
def cfgBadCode : Config :=
  { cfgBase with audio_lang_code := some "xxx", subtitle_lang_code := none }

/-- Non-win32 run whose mkvpropedit invocation exits with status 2. -/
def cfgPosixFail : Config :=
  { cfgScn with editorReturncode := 2, editorOutput := "propedit boom" }

/-- Dry run with the §8 scenario configuration. -/
def cfgDry : Config :=
  { cfgScn with dry_run := true }

/-- Run configured to accept `.mp4` files. -/
def cfgMp4Ext : Config :=
  { cfgBase with file_extensions := [".mp4"] }

/-- The four commands staged by the §8 scenario run. -/
def scnCmds : List MkvCmd :=
  [⟨TrackType.audio, 0, 0, 0⟩, ⟨TrackType.audio, 1, 1, 1⟩,
   ⟨TrackType.subtitles, 3, 1, 0⟩, ⟨TrackType.subtitles, 2, 0, 1⟩]

/-- Result of the strict §8 scenario run on `/test/movie.mkv`. -/
def resScn : FileRes :=
  { ext := ".mkv", successful := 1, staged := scnCmds,
    editorCall := some ⟨"/test/movie.mkv", scnCmds⟩ }

/-- Result of the dry §8 scenario run on `/test/movie.mkv`. -/
def resDry : FileRes :=
  { ext := ".mkv", estimated := 1, staged := scnCmds }

/-- Two non-default audio tracks that both carry language `eng`. -/
def twoEngAudio : List (Int × Track) :=
  [(0, { language := some "eng" }), (1, { language := some "eng" })]

/-- Result of the lazy `eng`/`eng` run on `infoJpnDefault`: the audio request
misses, yet the command clearing the current audio default (global id 0) is
applied together with the two subtitle edits. -/
def resLazy : FileRes :=
  { ext := ".mkv", successful := 1,
    staged := [⟨TrackType.audio, 0, 0, 0⟩, ⟨TrackType.subtitles, 1, 0, 0⟩,
               ⟨TrackType.subtitles, 2, 1, 1⟩],
    editorCall := some ⟨"/test/movie.mkv",
      [⟨TrackType.audio, 0, 0, 0⟩, ⟨TrackType.subtitles, 1, 0, 0⟩,
       ⟨TrackType.subtitles, 2, 1, 1⟩]⟩ }

/-- Result of the strict `fra`/`fra` run on `infoJpnDefault`: both types
abort, `miss_track_count` reaches 2 for the single file. -/
def resBothMiss : FileRes :=
  { ext := ".mkv", missTrack := 2,
    staged := [⟨TrackType.audio, 0, 0, 0⟩, ⟨TrackType.subtitles, 1, 0, 0⟩],
    noChanges := true }

/-! ### Helper lemmas -/

theorem scanTail_cmds (code : String) (s : ScanState) (tn : Int) (t : Track) :
    (scanTail code s tn t).cmds = s.cmds := by
  unfold scanTail
  split_ifs <;> rfl

theorem emit_ok (ty : TrackType) (g aLen flag : Int) :
    cmdOk aLen ⟨ty, g, if ty = TrackType.subtitles then g - aLen else g, flag⟩ := by
  cases ty <;> simp [cmdOk]

theorem scanTrack_cmds (ty : TrackType) (code : String) (aLen : Int)
    (s : ScanState) (tn : Int) (t : Track) :
    (scanTrack ty code aLen s tn t).cmds = s.cmds ∨
    (scanTrack ty code aLen s tn t).cmds =
      s.cmds ++ [⟨ty, tn, if ty = TrackType.subtitles then tn - aLen else tn, 0⟩] := by
  unfold scanTrack
  split_ifs <;> simp [scanTail_cmds]

theorem scanFold_cmds_ok (ty : TrackType) (code : String) (aLen : Int) :
    ∀ (ts : List (Int × Track)) (s : ScanState),
      (∀ c ∈ s.cmds, cmdOk aLen c) →
      ∀ c ∈ (ts.foldl (fun s p => scanTrack ty code aLen s p.1 p.2) s).cmds,
        cmdOk aLen c := by
  intro ts
  induction ts with
  | nil => intro s hs; simpa using hs
  | cons p rest ih =>
    intro s hs
    simp only [List.foldl_cons]
    apply ih
    intro c hc
    rcases scanTrack_cmds ty code aLen s p.1 p.2 with h | h
    · rw [h] at hc
      exact hs c hc
    · rw [h] at hc
      rcases List.mem_append.mp hc with h1 | h1
      · exact hs c h1
      · rw [List.mem_singleton.mp h1]
        exact emit_ok ty p.1 aLen 0

theorem scanTracks_cmds_ok (ty : TrackType) (code : String) (aLen : Int)
    (ts : List (Int × Track)) :
    ∀ c ∈ (scanTracks ty code aLen ts).cmds, cmdOk aLen c := by
  unfold scanTracks
  exact scanFold_cmds_ok ty code aLen ts _ (by intro c hc; simp at hc)

theorem processTrackType_cmds_ok (method : String) (info : TracksInfo)
    (ty : TrackType) (code : String) (cs : List MkvCmd) (b : Bool)
    (h : processTrackType method info ty code = Except.ok (cs, b)) :
    ∀ c ∈ cs, cmdOk (audioLenOf info) c := by
  have hscan := scanTracks_cmds_ok ty code (audioLenOf info) (tracksOf info ty)
  simp only [processTrackType] at h
  split at h
  · simp only [Except.ok.injEq, Prod.mk.injEq] at h
    rw [← h.1]
    exact hscan
  · split at h
    · split at h
      · split at h
        · simp only [Except.ok.injEq, Prod.mk.injEq] at h
          rw [← h.1]
          exact hscan
        · split at h
          · simp only [Except.ok.injEq, Prod.mk.injEq] at h
            rw [← h.1]
            intro c hc
            rcases List.mem_append.mp hc with h1 | h1
            · exact hscan c h1
            · rw [List.mem_singleton.mp h1]
              exact emit_ok ty _ _ 0
          · exact absurd h (by simp)
      · simp only [Except.ok.injEq, Prod.mk.injEq] at h
        rw [← h.1]
        exact hscan
    · split at h
      · simp only [Except.ok.injEq, Prod.mk.injEq] at h
        rw [← h.1]
        exact hscan
      · split at h
        · simp only [Except.ok.injEq, Prod.mk.injEq] at h
          rw [← h.1]
          intro c hc
          rcases List.mem_append.mp hc with h1 | h1
          · exact hscan c h1
          · rw [List.mem_singleton.mp h1]
            exact emit_ok ty _ _ _
        · exact absurd h (by simp)

theorem processLangPair_cmds_ok (cfg : Config) (info : TracksInfo)
    (ty : TrackType) (cs : List MkvCmd) (b : Bool)
    (h : processLangPair cfg info ty = Except.ok (cs, b)) :
    ∀ c ∈ cs, cmdOk (audioLenOf info) c := by
  simp only [processLangPair] at h
  split at h
  · simp only [Except.ok.injEq, Prod.mk.injEq] at h
    rw [← h.1]
    intro c hc
    simp at hc
  · split at h
    · exact absurd h (by simp)
    · exact processTrackType_cmds_ok _ _ _ _ _ _ h

theorem finishFile_ok_cases (cfg : Config) (f ext : String)
    (cmds : List MkvCmd) (nc : Bool) (miss : Int) (r : FileRes)
    (h : finishFile cfg f ext cmds nc miss = Except.ok r) :
    (r = { ext := ext, failed := 1, staged := cmds,
           editorCall := some ⟨editorFilePath cfg.moduleDir f, cmds⟩,
           diag := some cfg.editorOutput } ∧
       cfg.dry_run = false ∧ cfg.platform = "win32" ∧ nc = false) ∨
    (r = { ext := ext, successful := 1, staged := cmds,
           editorCall := some ⟨editorFilePath cfg.moduleDir f, cmds⟩ } ∧
       cfg.dry_run = false ∧ nc = false) ∨
    (r = { ext := ext, estimated := 1, staged := cmds } ∧
       cfg.dry_run = true ∧ cmds ≠ [] ∧ nc = false) ∨
    (r = { ext := ext, missTrack := miss, staged := cmds, noChanges := true } ∧
       nc = true) ∨
    (r = { ext := ext, unchanged := 1 } ∧ nc = false ∧ cmds = []) := by
  unfold finishFile at h
  split at h
  · rename_i hcond
    split at h
    · rename_i hdry
      split at h
      · rename_i hplat
        split at h
        · simp only [Except.ok.injEq] at h
          exact Or.inl ⟨h.symm, hdry, hplat, hcond.2⟩
        · simp only [Except.ok.injEq] at h
          exact Or.inr (Or.inl ⟨h.symm, hdry, hcond.2⟩)
      · split at h
        · exact absurd h (by simp)
        · simp only [Except.ok.injEq] at h
          exact Or.inr (Or.inl ⟨h.symm, hdry, hcond.2⟩)
    · rename_i hdry
      simp only [Except.ok.injEq] at h
      exact Or.inr (Or.inr (Or.inl
        ⟨h.symm, Bool.ne_false_iff.mp hdry, hcond.1, hcond.2⟩))
  · rename_i hcond
    split at h
    · rename_i hnc
      simp only [Except.ok.injEq] at h
      exact Or.inr (Or.inr (Or.inr (Or.inl ⟨h.symm, hnc⟩)))
    · rename_i hnc
      simp only [Except.ok.injEq] at h
      refine Or.inr (Or.inr (Or.inr (Or.inr
        ⟨h.symm, Bool.eq_false_iff.mpr hnc, ?_⟩)))
      by_contra hne
      exact hcond ⟨hne, Bool.eq_false_iff.mpr hnc⟩

theorem process_ok_cases (cfg : Config) (p : String × TracksInfo) (r : FileRes)
    (h : process_media_file_tracks cfg p = Except.ok r) :
    (r = { ext := splitextExt (pyLower p.1), invalid := 1 } ∧
       pyEndsWith (pyLower p.1) ".mkv" = false) ∨
    (∃ ca aa cs bs,
       processLangPair cfg p.2 TrackType.audio = Except.ok (ca, aa) ∧
       processLangPair cfg p.2 TrackType.subtitles = Except.ok (cs, bs) ∧
       pyEndsWith (pyLower p.1) ".mkv" = true ∧
       finishFile cfg p.1 (splitextExt (pyLower p.1)) (ca ++ cs) (aa || bs)
         ((if aa then 1 else 0) + (if bs then 1 else 0)) = Except.ok r) := by
  simp only [process_media_file_tracks] at h
  split at h
  · rename_i hmkv
    simp only [Except.ok.injEq] at h
    exact Or.inl ⟨h.symm, Bool.eq_false_iff.mpr hmkv⟩
  · rename_i hmkv
    split at h
    · exact absurd h (by simp)
    · rename_i ca aa heqA
      split at h
      · exact absurd h (by simp)
      · rename_i cs bs heqS
        exact Or.inr ⟨ca, aa, cs, bs, heqA, heqS, not_not.mp hmkv, h⟩

theorem scanTail_new (code : String) (s : ScanState) (tn : Int) (t : Track)
    (hoff : code ≠ "off") :
    (scanTail code s tn t).new =
      if t.language = some code then some (PyVal.num tn) else s.new := by
  unfold scanTail
  split_ifs with h1 h2
  · rfl
  · exact absurd h2.2 hoff
  · rfl

theorem scanTrack_new (ty : TrackType) (code : String) (aLen : Int)
    (s : ScanState) (tn : Int) (t : Track) (hoff : code ≠ "off") :
    (scanTrack ty code aLen s tn t).new =
      if t.language = some code then some (PyVal.num tn) else s.new := by
  unfold scanTrack
  split_ifs with h1 h2 h3 <;>
    rw [scanTail_new code _ _ _ hoff] <;> simp_all

theorem specLastMatchId_cons (p : Int × Track) (rest : List (Int × Track))
    (code : String) :
    specLastMatchId (p :: rest) code =
      match specLastMatchId rest code with
      | some i => some i
      | none => if p.2.language = some code then some p.1 else none := rfl

theorem scanFold_new (ty : TrackType) (code : String) (aLen : Int)
    (hoff : code ≠ "off") :
    ∀ (ts : List (Int × Track)) (s : ScanState),
      (ts.foldl (fun s p => scanTrack ty code aLen s p.1 p.2) s).new =
        match specLastMatchId ts code with
        | some i => some (PyVal.num i)
        | none => s.new := by
  intro ts
  induction ts with
  | nil => intro s; rfl
  | cons p rest ih =>
    intro s
    simp only [List.foldl_cons, ih]
    rw [scanTrack_new ty code aLen s p.1 p.2 hoff, specLastMatchId_cons]
    cases hm : specLastMatchId rest code
    · simp only [hm]
      by_cases hl : p.2.language = some code <;> simp [hl]
    · simp only [hm]

theorem scanTracks_new (ty : TrackType) (code : String) (aLen : Int)
    (ts : List (Int × Track)) (hoff : code ≠ "off") :
    (scanTracks ty code aLen ts).new =
      Option.map PyVal.num (specLastMatchId ts code) := by
  unfold scanTracks
  rw [scanFold_new ty code aLen hoff ts]
  cases specLastMatchId ts code <;> rfl

/-! ### Claim theorems -/

/-- C1: under the strict policy, if the strict-abort branch (lines 332-336)
fires for either track type, every staged operation for the file is
discarded — mkvpropedit is never invoked, the applied operation set is
empty, and the file is classified by `miss_track_count` alone, even when the
other track type's request was independently satisfiable (its staged
commands sit in `mkv_cmds` but are never applied). -/
theorem strict_abort_discards_all_staged_ops (cfg : Config)
    (info : TracksInfo) (mediaFile : String) (ca cs : List MkvCmd)
    (aa bs : Bool)
    (hstrict : cfg.default_method = "strict")
    (hmkv : pyEndsWith (pyLower mediaFile) ".mkv" = true)
    (ha : processLangPair cfg info TrackType.audio = Except.ok (ca, aa))
    (hs : processLangPair cfg info TrackType.subtitles = Except.ok (cs, bs))
    (hab : aa = true ∨ bs = true) :
    ∃ r, process_media_file_tracks cfg (mediaFile, info) = Except.ok r ∧
      r.editorCall = none ∧ appliedOps r = [] ∧ r.successful = 0 ∧
      r.estimated = 0 ∧ r.unchanged = 0 ∧ r.failed = 0 ∧ 1 ≤ r.missTrack := by
  refine ⟨{ ext := splitextExt (pyLower mediaFile),
            missTrack := (if aa then 1 else 0) + (if bs then 1 else 0),
            staged := ca ++ cs, noChanges := true },
          ?_, rfl, rfl, rfl, rfl, rfl, rfl, ?_⟩
  · simp only [process_media_file_tracks, hmkv, not_true_eq_false, if_false,
      ha, hs]
    rcases hab with hh | hh <;> subst hh <;>
      simp [finishFile]
  · rcases hab with hh | hh <;> subst hh
    · cases bs <;> norm_num
    · cases aa <;> norm_num

/-- C1 witness: strict run requesting `eng`/`eng` on a container whose audio
is all-`jpn` but whose subtitles do contain `eng`: the audio abort discards
the two satisfiable subtitle edits as well. -/
theorem strict_abort_discards_all_staged_ops_witness :
    cfgBase.default_method = "strict" ∧
    (∃ r, process_media_file_tracks cfgBase ("/test/movie.mkv", infoJpnDefault) =
        Except.ok r ∧
      r.editorCall = none ∧ appliedOps r = [] ∧ r.successful = 0 ∧
      r.estimated = 0 ∧ r.unchanged = 0 ∧ r.failed = 0 ∧ 1 ≤ r.missTrack) :=
  ⟨rfl, strict_abort_discards_all_staged_ops cfgBase infoJpnDefault
    "/test/movie.mkv" [⟨TrackType.audio, 0, 0, 0⟩]
    [⟨TrackType.subtitles, 1, 0, 0⟩, ⟨TrackType.subtitles, 2, 1, 1⟩]
    true false rfl rfl rfl rfl (Or.inl rfl)⟩

/-- C2: evaluation of the code at the failing input of the lazy-policy
claim.  Lazy run requesting `eng` audio on a container whose only audio track
is `jpn` and default: the scan finds no `eng` audio track
(`new_default_track_num` stays `None`), yet the operation clearing the
current audio default — staged at lines 296-308 during the scan — survives
the lazy skip and is applied by the mkvpropedit invocation, so the audio
type is not left untouched as the claim (and the CLI help text for `lazy`)
states. -/
theorem lazy_missing_track_still_clears_default :
    (scanTracks TrackType.audio "eng" (audioLenOf infoJpnDefault)
        infoJpnDefault.audio).new = none ∧
    process_media_file_tracks cfgLazyEng ("/test/movie.mkv", infoJpnDefault) =
      Except.ok resLazy ∧
    MkvCmd.mk TrackType.audio 0 0 0 ∈ appliedOps resLazy ∧
    resLazy.successful = 1 :=
  ⟨rfl, rfl, by decide, rfl⟩

/-- C3 counterexample: two audio tracks both with language `eng`; the scan's
`new_default_track_num` (lines 313-314 overwrite on every match, without
breaking) ends at id 1, the last match, while the spec's "first track whose
language equals the code" is id 0. -/
theorem new_default_is_not_first_match :
    (scanTracks TrackType.audio "eng" 2 twoEngAudio).new =
      some (PyVal.num 1) ∧
    specFirstMatchId twoEngAudio "eng" = some 0 ∧
    (scanTracks TrackType.audio "eng" 2 twoEngAudio).new ≠
      Option.map PyVal.num (specFirstMatchId twoEngAudio "eng") :=
  ⟨rfl, rfl, by decide⟩

/-- C3 amended: for a code other than `"off"`, the scan's
`new_default_track_num` is the id of the LAST track, in iteration
(ascending id) order, whose language equals the code — each match overwrites
the previous one.  (The `"off"` sentinel case follows the scan's running
`current_default_track_num` state and is outside this statement.) -/
theorem new_default_is_last_match (ty : TrackType) (code : String)
    (audioLen : Int) (tracks : List (Int × Track)) (hoff : code ≠ "off") :
    (scanTracks ty code audioLen tracks).new =
      Option.map PyVal.num (specLastMatchId tracks code) :=
  scanTracks_new ty code audioLen tracks hoff

/-- C3 witness: the amended statement evaluated on the two-`eng`-track
container. -/
theorem new_default_is_last_match_witness :
    ("eng" : String) ≠ "off" ∧
    (scanTracks TrackType.audio "eng" 2 twoEngAudio).new =
      Option.map PyVal.num (specLastMatchId twoEngAudio "eng") :=
  ⟨by decide, new_default_is_last_match TrackType.audio "eng" 2 twoEngAudio
    (by decide)⟩

/-- C4: evaluation of the code at the failing input of the editor-failure
claim.  On a non-win32 platform, `subproc_run(full_cmd, capture_output=True,
check=True)` (line 406) raises `CalledProcessError` on mkvpropedit's
non-zero exit, before the `returncode != 0` handler (lines 409-418) that
would count the file as `failed` and log the diagnostic can run; the
exception propagates out of the worker iteration, so the first file is not
classified and the second file of the batch is never processed. -/
theorem posix_editor_failure_aborts_batch :
    change_default_tracks cfgPosixFail
        [("/t/a.mkv", infoScn), ("/t/b.mkv", infoScn)] =
      Except.error (0, PyError.calledProcessError "propedit boom") := rfl

/-- C5 counterexample: for the relative path `movie.mkv`, the Container
Inspector is invoked on `movie.mkv` itself (line 194), while mkvpropedit is
invoked on `os.path.join(os.path.dirname(__file__), media_file)` (line 395),
here `/app/pkg/movie.mkv` — a different file. -/
theorem editor_path_differs_for_relative_path :
    Except.map editorPathOf
        (process_media_file_tracks cfgScn ("movie.mkv", infoScn)) =
      Except.ok (some "/app/pkg/movie.mkv") ∧
    inspectorFilePath "movie.mkv" = "movie.mkv" ∧
    (some "/app/pkg/movie.mkv" : Option String) ≠
      some (inspectorFilePath "movie.mkv") :=
  ⟨rfl, rfl, by decide⟩

theorem editorCall_path_eq (cfg : Config) (p : String × TracksInfo)
    (r : FileRes) (c : EditorCall)
    (h : process_media_file_tracks cfg p = Except.ok r)
    (hc : r.editorCall = some c) :
    c.path = editorFilePath cfg.moduleDir p.1 := by
  rcases process_ok_cases cfg p r h with ⟨hr, _⟩ |
    ⟨ca, aa, cs, bs, _, _, _, hf⟩
  · rw [hr] at hc
    simp at hc
  · rcases finishFile_ok_cases _ _ _ _ _ _ _ hf with
      ⟨hr, _⟩ | ⟨hr, _⟩ | ⟨hr, _⟩ | ⟨hr, _⟩ | ⟨hr, _⟩ <;> rw [hr] at hc
    · simp at hc
      subst hc
      rfl
    · simp at hc
      subst hc
      rfl
    · simp at hc
    · simp at hc
    · simp at hc

theorem osPathJoin_absolute (a b : String)
    (h : pyStartsWith b "/" = true) : osPathJoin a b = b := by
  simp [osPathJoin, h]

/-- C5 amended: whenever the media file path is absolute, `os.path.join`
leaves it unchanged, so mkvpropedit is invoked on exactly the path that was
inspected; for relative paths the two differ (see the counterexample). -/
theorem editor_edits_inspected_file_when_absolute (cfg : Config)
    (p : String × TracksInfo) (r : FileRes) (c : EditorCall)
    (habs : pyStartsWith p.1 "/" = true)
    (h : process_media_file_tracks cfg p = Except.ok r)
    (hc : r.editorCall = some c) :
    c.path = inspectorFilePath p.1 := by
  rw [editorCall_path_eq cfg p r c h hc]
  unfold editorFilePath inspectorFilePath
  exact osPathJoin_absolute _ _ habs

/-- C5 witness: the §8 scenario run on the absolute path
`/test/movie.mkv`. -/
theorem editor_edits_inspected_file_when_absolute_witness :
    pyStartsWith "/test/movie.mkv" "/" = true ∧
    (EditorCall.mk "/test/movie.mkv" scnCmds).path =
      inspectorFilePath "/test/movie.mkv" :=
  ⟨rfl, editor_edits_inspected_file_when_absolute cfgScn
    ("/test/movie.mkv", infoScn) resScn ⟨"/test/movie.mkv", scnCmds⟩
    rfl rfl rfl⟩

/-- C6: every command staged by a per-file run is correctly translated to
the type-relative numbering — for a subtitle operation the number written
into the `track:s<n>` selector equals the global id minus the container's
audio track count, and for an audio operation it equals the global id
unchanged (the `(x - len(tracks_info.get("audio", {}))) if track_type ==
"subtitles" else x` arithmetic at lines 296-301, 341-351 and 374-384). -/
theorem staged_cmds_relative_translation (cfg : Config)
    (p : String × TracksInfo) (r : FileRes)
    (h : process_media_file_tracks cfg p = Except.ok r) :
    ∀ c ∈ r.staged, cmdOk (audioLenOf p.2) c := by
  rcases process_ok_cases cfg p r h with ⟨hr, _⟩ |
    ⟨ca, aa, cs, bs, hA, hS, _, hf⟩
  · rw [hr]
    intro c hc
    simp at hc
  · have hall : ∀ c ∈ ca ++ cs, cmdOk (audioLenOf p.2) c := by
      intro c hc
      rcases List.mem_append.mp hc with h1 | h1
      · exact processLangPair_cmds_ok cfg p.2 TrackType.audio ca aa hA c h1
      · exact processLangPair_cmds_ok cfg p.2 TrackType.subtitles cs bs hS c h1
    rcases finishFile_ok_cases _ _ _ _ _ _ _ hf with
        ⟨hr, _⟩ | ⟨hr, _⟩ | ⟨hr, _⟩ | ⟨hr, _⟩ | ⟨hr, _⟩ <;> rw [hr] <;>
      first
        | exact hall
        | (intro c hc; simp at hc)

/-- C6 witness: the subtitle command of the §8 scenario that clears the old
default, global id 3, is addressed as relative number 1 = 3 - 2. -/
theorem staged_cmds_relative_translation_witness :
    cmdOk (audioLenOf infoScn) (MkvCmd.mk TrackType.subtitles 3 1 0) :=
  staged_cmds_relative_translation cfgScn ("/test/movie.mkv", infoScn) resScn
    rfl (MkvCmd.mk TrackType.subtitles 3 1 0) (by decide)

/-- C7 counterexample: with `.mp4` among the configured media extensions,
the file `/t/movie.mp4` is selected for processing by
`get_media_files_info` (lines 228-230), yet `process_media_file_tracks`
classifies it `invalidFile` because the check at line 274 tests the
hard-coded suffix `.mkv`, not the configured extensions. -/
theorem accepted_extension_still_invalid :
    singleFileMediaPaths cfgMp4Ext.file_extensions "/t/movie.mp4" =
      ["/t/movie.mp4"] ∧
    process_media_file_tracks cfgMp4Ext ("/t/movie.mp4", {}) =
      Except.ok { ext := ".mp4", invalid := 1 } :=
  ⟨rfl, rfl⟩

/-- C7 amended: a file is classified `invalidFile` — with no staged
operation, no mkvpropedit invocation, and no other outcome — if and only if
its lower-cased path does not end in the hard-coded suffix `.mkv`,
independently of the extensions configured for the search. -/
theorem invalid_iff_not_mkv_suffix (cfg : Config) (p : String × TracksInfo)
    (r : FileRes) (h : process_media_file_tracks cfg p = Except.ok r) :
    (r.invalid = 1 ↔ pyEndsWith (pyLower p.1) ".mkv" = false) ∧
    (r.invalid = 1 → r.staged = [] ∧ r.editorCall = none ∧ outcomeSum r = 1) := by
  rcases process_ok_cases cfg p r h with ⟨hr, hmkv⟩ |
    ⟨ca, aa, cs, bs, hA, hS, hmkv, hf⟩
  · rw [hr]
    refine ⟨by simp [hmkv], fun _ => ⟨rfl, rfl, by norm_num [outcomeSum]⟩⟩
  · rcases finishFile_ok_cases _ _ _ _ _ _ _ hf with
        ⟨hr, _⟩ | ⟨hr, _⟩ | ⟨hr, _⟩ | ⟨hr, _⟩ | ⟨hr, _⟩ <;> rw [hr] <;>
      exact ⟨by simp [hmkv], fun hx => by norm_num at hx⟩

/-- C7 witness: the amended equivalence evaluated on the `.mp4` file of the
counterexample configuration. -/
theorem invalid_iff_not_mkv_suffix_witness :
    (FileRes.invalid { ext := ".mp4", invalid := 1 } = 1 ↔
      pyEndsWith (pyLower "/t/movie.mp4") ".mkv" = false) ∧
    (FileRes.invalid { ext := ".mp4", invalid := 1 } = 1 →
      FileRes.staged { ext := ".mp4", invalid := 1 } = [] ∧
      FileRes.editorCall { ext := ".mp4", invalid := 1 } = none ∧
      outcomeSum { ext := ".mp4", invalid := 1 } = 1) :=
  invalid_iff_not_mkv_suffix cfgMp4Ext ("/t/movie.mp4", {})
    { ext := ".mp4", invalid := 1 } rfl

/-- C8 counterexample: with the unrecognized audio code `xxx`, the batch
over `[/t/a.mp4, /t/b.mkv]` classifies the first file (`invalidFile`)
before the language-code verification error is raised while processing the
second — the error does not fire before any file is processed. -/
theorem bad_code_error_after_first_file :
    change_default_tracks cfgBadCode [("/t/a.mp4", {}), ("/t/b.mkv", infoScn)] =
      Except.error (1, PyError.langCodeError "xxx" TrackType.audio) ∧
    (1 : Nat) ≠ 0 :=
  ⟨rfl, by decide⟩

/-- C8 amended: an unrecognized audio language code raises the verification
exception during the per-file processing of any `.mkv` file (lines 281-287),
after the extension check and never as a classified per-file outcome; the
exception propagates out of the worker iteration, aborting the batch at that
file, with all earlier files already fully processed. -/
theorem bad_code_raises_during_file_processing (cfg : Config)
    (c mediaFile : String) (info : TracksInfo)
    (hc : cfg.audio_lang_code = some c)
    (hbad : pyLower c ∉ cfg.langCodeLines.map codeOfLine)
    (hmkv : pyEndsWith (pyLower mediaFile) ".mkv" = true) :
    process_media_file_tracks cfg (mediaFile, info) =
      Except.error (PyError.langCodeError (pyLower c) TrackType.audio) := by
  have hA : processLangPair cfg info TrackType.audio =
      Except.error (PyError.langCodeError (pyLower c) TrackType.audio) := by
    simp only [processLangPair, codeFor, hc, verify_language_code]
    rw [if_neg hbad]
  simp only [process_media_file_tracks, hmkv, not_true_eq_false, if_false, hA]

/-- C8 witness: the amended statement evaluated on the `xxx` configuration
and the file `/t/b.mkv`. -/
theorem bad_code_raises_during_file_processing_witness :
    cfgBadCode.audio_lang_code = some "xxx" ∧
    pyLower "xxx" ∉ cfgBadCode.langCodeLines.map codeOfLine ∧
    pyEndsWith (pyLower "/t/b.mkv") ".mkv" = true ∧
    process_media_file_tracks cfgBadCode ("/t/b.mkv", infoScn) =
      Except.error (PyError.langCodeError (pyLower "xxx") TrackType.audio) :=
  ⟨rfl, by decide, rfl,
    bad_code_raises_during_file_processing cfgBadCode "xxx" "/t/b.mkv" infoScn
      rfl (by decide) rfl⟩

/-- C9 counterexample: strict run requesting `fra` for both types on a
container with neither: `miss_track_count += 1` fires once per type
(line 335), so the single file contributes 2 to the outcome counters, not
exactly 1. -/
theorem both_types_missing_counts_twice :
    process_media_file_tracks cfgFraFra ("/t/m.mkv", infoJpnDefault) =
      Except.ok resBothMiss ∧
    outcomeSum resBothMiss = 2 ∧ (2 : Int) ≠ 1 :=
  ⟨rfl, rfl, by decide⟩

/-- C9 amended: each processed file contributes exactly one extension
histogram entry `(ext, 1)`, and the six outcome counters sum to exactly 1 —
except that when the strict abort fires for both track types the
missing-track counter is incremented once per type, making the sum 2. -/
theorem one_outcome_per_file_except_double_miss (cfg : Config)
    (p : String × TracksInfo) (r : FileRes)
    (h : process_media_file_tracks cfg p = Except.ok r) :
    r.extCount = 1 ∧
    (outcomeSum r = 1 ∨ (outcomeSum r = 2 ∧ r.missTrack = 2)) := by
  rcases process_ok_cases cfg p r h with ⟨hr, _⟩ |
    ⟨ca, aa, cs, bs, hA, hS, hmkv, hf⟩
  · rw [hr]
    exact ⟨rfl, Or.inl (by norm_num [outcomeSum])⟩
  · rcases finishFile_ok_cases _ _ _ _ _ _ _ hf with
      ⟨hr, _⟩ | ⟨hr, _⟩ | ⟨hr, _⟩ | ⟨hr, hnc⟩ | ⟨hr, _⟩
    · rw [hr]
      exact ⟨rfl, Or.inl (by norm_num [outcomeSum])⟩
    · rw [hr]
      exact ⟨rfl, Or.inl (by norm_num [outcomeSum])⟩
    · rw [hr]
      exact ⟨rfl, Or.inl (by norm_num [outcomeSum])⟩
    · rw [hr]
      refine ⟨rfl, ?_⟩
      cases aa <;> cases bs
      · simp at hnc
      · exact Or.inl (by norm_num [outcomeSum])
      · exact Or.inl (by norm_num [outcomeSum])
      · exact Or.inr ⟨by norm_num [outcomeSum], by norm_num⟩
    · rw [hr]
      exact ⟨rfl, Or.inl (by norm_num [outcomeSum])⟩

/-- C9 witness: the amended statement evaluated on the §8 scenario run. -/
theorem one_outcome_per_file_except_double_miss_witness :
    resScn.extCount = 1 ∧
    (outcomeSum resScn = 1 ∨ (outcomeSum resScn = 2 ∧ resScn.missTrack = 2)) :=
  one_outcome_per_file_except_double_miss cfgScn ("/test/movie.mkv", infoScn)
    resScn rfl

/-- C10: when the dry-run flag is set, the mkvpropedit collaborator is never
invoked (the `if not self.dry_run` guard at line 400 takes the `else`
branch), no file is classified `successful` or `failed`, and every file
whose resolution staged operations that survived (non-empty `mkv_cmds`,
`no_changes` unset) is classified `estimatedSuccessful`. -/
theorem dry_run_never_invokes_editor (cfg : Config)
    (p : String × TracksInfo) (r : FileRes)
    (hdry : cfg.dry_run = true)
    (h : process_media_file_tracks cfg p = Except.ok r) :
    r.editorCall = none ∧ r.successful = 0 ∧ r.failed = 0 ∧
    (r.staged ≠ [] ∧ r.noChanges = false → r.estimated = 1) := by
  rcases process_ok_cases cfg p r h with ⟨hr, _⟩ |
    ⟨ca, aa, cs, bs, hA, hS, hmkv, hf⟩
  · rw [hr]
    exact ⟨rfl, rfl, rfl, fun hx => absurd rfl hx.1⟩
  · rcases finishFile_ok_cases _ _ _ _ _ _ _ hf with
      ⟨hr, hd, _⟩ | ⟨hr, hd, _⟩ | ⟨hr, _⟩ | ⟨hr, _⟩ | ⟨hr, _, hcm⟩
    · rw [hdry] at hd
      exact absurd hd (by simp)
    · rw [hdry] at hd
      exact absurd hd (by simp)
    · rw [hr]
      exact ⟨rfl, rfl, rfl, fun _ => rfl⟩
    · rw [hr]
      exact ⟨rfl, rfl, rfl, fun hx => absurd hx.2 (by simp)⟩
    · rw [hr]
      exact ⟨rfl, rfl, rfl, fun hx => absurd rfl hx.1⟩

/-- C10 witness: the dry §8 scenario run stages four commands and is
classified `estimatedSuccessful` with no editor invocation. -/
theorem dry_run_never_invokes_editor_witness :
    cfgDry.dry_run = true ∧
    (resDry.editorCall = none ∧ resDry.successful = 0 ∧ resDry.failed = 0 ∧
      (resDry.staged ≠ [] ∧ resDry.noChanges = false → resDry.estimated = 1)) :=
  ⟨rfl, dry_run_never_invokes_editor cfgDry ("/test/movie.mkv", infoScn)
    resDry rfl rfl⟩

end MkvDefaulter
